import Mathlib

/-!
Verification of the airdrop canister (src/airdrop_canister: state.rs, utils.rs,
canister.rs), the mature variant of the share-based token distribution engine.

Modelling conventions:
* `Principal` is an opaque identity, modelled by a natural number tag; the
  distinguished anonymous principal is tag 0.
* The thread-local `HashMap<Principal, Nat>` stores are modelled as
  association lists; `insert` overwrites the entry in place when the key is
  present and appends otherwise, `remove` deletes the (unique) entry.
* The canister's mutable globals (`TOKEN_PID`, `TOKEN_ALLOCATIONS`,
  `SHARE_ALLOCATIONS`, `INTERRUPTED_DISTRIBUTIONS`) are gathered into an
  `AirdropState` record threaded explicitly through every entry point.
* Host authorization (`ic_cdk::api::is_controller`) is a boolean parameter
  `auth` given to each entry point.
* Remote ledger calls are modelled by their responses, passed as parameters:
  `balanceResp`/`feeResp : Except String Nat` mirror `CallResult` (an `Err`
  carries the rejection message that `handle_intercanister_call` wraps into
  `AirdropError.Unknown`), and an `outcome : Principal → Nat → Bool` oracle
  gives the success of each participant's n-th transfer attempt.
* `candid::Nat` arithmetic is arbitrary-precision and panics on division by
  zero (and on subtraction underflow); panics are modelled as an explicit
  `DistributeResult.panic` branch where the source can reach one.
-/

/-- Opaque account identity (IC principal). Structural equality. -/
structure Principal where
  tag : Nat
deriving DecidableEq, Repr

/-- The distinguished anonymous principal (`Principal::anonymous()`). -/
def Principal.anonymous : Principal := ⟨0⟩

/-- Model of `AirdropError` from src/airdrop_canister/src/types.rs. -/
inductive AirdropError where
  | Unknown (msg : String)
  | TokenCanisterError (msg : String)
  | Unauthorized
  | EmptyAllocationList
  | ConfigurationError
deriving DecidableEq, Repr

/-- Association-list lookup, model of `HashMap::get`. -/
def alGet (p : Principal) : List (Principal × Nat) → Option Nat
  | [] => none
  | (q, v) :: rest => if q = p then some v else alGet p rest

/-- Association-list upsert, model of `HashMap::insert` (overwrite in place,
append when absent). -/
def alInsert (p : Principal) (v : Nat) : List (Principal × Nat) → List (Principal × Nat)
  | [] => [(p, v)]
  | (q, w) :: rest => if q = p then (p, v) :: rest else (q, w) :: alInsert p v rest

/-- Association-list removal of the entry with key `p`, model of
`HashMap::remove` (at most one entry per key). -/
def alRemove (p : Principal) : List (Principal × Nat) → List (Principal × Nat)
  | [] => []
  | (q, w) :: rest => if q = p then rest else (q, w) :: alRemove p rest

/-- The canister state: the four thread-local globals.
`TOKEN_PID`, `TOKEN_ALLOCATIONS` and `SHARE_ALLOCATIONS` are declared in
src/airdrop_canister/src/state.rs; `INTERRUPTED_DISTRIBUTIONS` is imported
from `crate::state` by canister.rs and used there as a further
`HashMap<Principal, Nat>` (its `thread_local!` declaration is not in the
snapshot of state.rs, but every operation on it is in canister.rs). -/
structure AirdropState where
  tokenPid : Principal
  tokenAllocations : List (Principal × Nat)
  shareAllocations : List (Principal × Nat)
  interruptedDistributions : List (Principal × Nat)
deriving DecidableEq, Repr

/-- Initial state: all thread-locals at their initializers
(`Principal::anonymous()`, empty maps). -/
def initState : AirdropState := ⟨Principal.anonymous, [], [], []⟩

/-- Model of `clear_all` (state.rs): resets the token canister pid and clears the
token and share allocation maps. It does not touch
`INTERRUPTED_DISTRIBUTIONS`. -/
def clear_all (s : AirdropState) : AirdropState :=
  { s with tokenPid := Principal.anonymous, tokenAllocations := [], shareAllocations := [] }

/-- Model of `get_token_pid` (state.rs). -/
def get_token_pid (s : AirdropState) : Principal := s.tokenPid

/-- Model of `get_user_shares` (state.rs). -/
def get_user_shares (s : AirdropState) (user : Principal) : Option Nat :=
  alGet user s.shareAllocations

/-- Model of `get_all_share_allocations` (state.rs): the share map as a vector of
pairs (the model takes the association list's own order as the snapshot
order). -/
def get_all_share_allocations (s : AirdropState) : List (Principal × Nat) :=
  s.shareAllocations

/-- Model of `add_share_allocation` (state.rs): map insert (overwrite). -/
def add_share_allocation (user : Principal) (amount : Nat) (s : AirdropState) : AirdropState :=
  { s with shareAllocations := alInsert user amount s.shareAllocations }

/-- Model of `get_user_tokens` (state.rs). -/
def get_user_tokens (s : AirdropState) (user : Principal) : Option Nat :=
  alGet user s.tokenAllocations

/-- Model of `get_all_token_allocations` (state.rs). -/
def get_all_token_allocations (s : AirdropState) : List (Principal × Nat) :=
  s.tokenAllocations

/-- Model of `add_token_allocation` (state.rs): map insert (overwrite). -/
def add_token_allocation (user : Principal) (amount : Nat) (s : AirdropState) : AirdropState :=
  { s with tokenAllocations := alInsert user amount s.tokenAllocations }

/-- Model of `only_controller` (utils.rs); `auth` is the host's
`is_controller(caller)` answer. -/
def only_controller (auth : Bool) : Except AirdropError Unit :=
  if !auth then .error .Unauthorized else .ok ()

/-- Model of `not_anonymous` (utils.rs). -/
def not_anonymous (id : Principal) : Except AirdropError Unit :=
  if id = Principal.anonymous then .error .ConfigurationError else .ok ()

/-- Model of `handle_intercanister_call` (utils.rs): a rejected call's message is
wrapped into `AirdropError::Unknown`. -/
def handle_intercanister_call (resp : Except String Nat) : Except AirdropError Nat :=
  match resp with
  | .ok v => .ok v
  | .error msg => .error (.Unknown msg)

/-- Model of `token_balance` (utils.rs): fails with `ConfigurationError` while the
ledger reference is anonymous, otherwise returns the remote response. -/
def token_balance (s : AirdropState) (resp : Except String Nat) : Except AirdropError Nat :=
  match not_anonymous (get_token_pid s) with
  | .error e => .error e
  | .ok _ => handle_intercanister_call resp

/-- Model of `token_fee` (utils.rs): same structure as `token_balance`. -/
def token_fee (s : AirdropState) (resp : Except String Nat) : Except AirdropError Nat :=
  match not_anonymous (get_token_pid s) with
  | .error e => .error e
  | .ok _ => handle_intercanister_call resp

/-- Model of `set_token_canister_id` (canister.rs): controller check, then stores the
id unconditionally (no anonymity check on this path). Returns the call's
result together with the post state. -/
def set_token_canister_id (auth : Bool) (id : Principal) (s : AirdropState) :
    Except AirdropError Unit × AirdropState :=
  match only_controller auth with
  | .error e => (.error e, s)
  | .ok _ => (.ok (), { s with tokenPid := id })

/-- Model of `validate_set_token_canister_id` (canister.rs): controller check, then
rejects the anonymous principal; mutates nothing. -/
def validate_set_token_canister_id (auth : Bool) (id : Principal) (s : AirdropState) :
    Except AirdropError Unit × AirdropState :=
  match only_controller auth with
  | .error e => (.error e, s)
  | .ok _ =>
    if id = Principal.anonymous then (.error .ConfigurationError, s) else (.ok (), s)

/-- Model of `add_share_allocations` (canister.rs): controller check, then upserts
every pair of the list in order (no validation of shares or users on this
path). -/
def add_share_allocations (auth : Bool) (allocations : List (Principal × Nat))
    (s : AirdropState) : Except AirdropError Unit × AirdropState :=
  match only_controller auth with
  | .error e => (.error e, s)
  | .ok _ => (.ok (), allocations.foldl (fun st a => add_share_allocation a.1 a.2 st) s)

/-- The input scan of `validate_add_share_allocations`: returns
`ConfigurationError` at the first zero share or anonymous user. -/
def checkAllocations : List (Principal × Nat) → Except AirdropError Unit
  | [] => .ok ()
  | (user, share) :: rest =>
    if share = 0 ∨ user = Principal.anonymous then .error .ConfigurationError
    else checkAllocations rest

/-- Model of `validate_add_share_allocations` (canister.rs): controller check, then
the input scan; mutates nothing. -/
def validate_add_share_allocations (auth : Bool) (allocations : List (Principal × Nat))
    (s : AirdropState) : Except AirdropError Unit × AirdropState :=
  match only_controller auth with
  | .error e => (.error e, s)
  | .ok _ => (checkAllocations allocations, s)

/-- Model of `reset` (canister.rs): controller check, then `clear_all`. -/
def reset (auth : Bool) (s : AirdropState) : Except AirdropError Unit × AirdropState :=
  match only_controller auth with
  | .error e => (.error e, s)
  | .ok _ => (.ok (), clear_all s)

/-- Model of `validate_reset` (canister.rs): controller check only. -/
def validate_reset (auth : Bool) (s : AirdropState) : Except AirdropError Unit × AirdropState :=
  match only_controller auth with
  | .error e => (.error e, s)
  | .ok _ => (.ok (), s)

/-- The `shares_sum` accumulation of `distribute` (canister.rs):
`share_allocations.iter().for_each(|(_, share)| shares_sum += share)`. -/
def sumShares (l : List (Principal × Nat)) : Nat :=
  l.foldl (fun acc a => acc + a.2) 0

/-- The per-participant retry loop of `distribute` (canister.rs):
`tries` starts at 0; each iteration attempts the transfer (`outcome tries`),
breaks on success, parks when a failure arrives with `tries > 2`, and
otherwise increments `tries`. Returns (overall success, attempts issued).
`fuel` bounds the recursion; the loop runs at most 4 iterations, so the
engine calls it with fuel 4. -/
def retryLoop (outcome : Nat → Bool) : Nat → Nat → Bool × Nat
  | _, 0 => (false, 0)
  | tries, fuel + 1 =>
    if outcome tries then (true, 1)
    else if tries > 2 then (false, 1)
    else
      let r := retryLoop outcome (tries + 1) fuel
      (r.1, r.2 + 1)

/-- Whether a participant's retry loop ends in a successful transfer. -/
def transferSucceeds (outcome : Nat → Bool) : Bool := (retryLoop outcome 0 4).1

/-- How many transfer attempts the retry loop issues for one participant. -/
def transferAttempts (outcome : Nat → Bool) : Nat := (retryLoop outcome 0 4).2

/-- The bookkeeping `distribute` performs for one participant once its retry
loop resolves: on success, remove the participant from `SHARE_ALLOCATIONS`
and record `tokens` in `TOKEN_ALLOCATIONS`; on retry exhaustion, record
`tokens` in `INTERRUPTED_DISTRIBUTIONS` (the share entry is left in place,
exactly as in the source). -/
def processParticipant (outcome : Nat → Bool) (user : Principal) (tokens : Nat)
    (s : AirdropState) : AirdropState :=
  if transferSucceeds outcome then
    add_token_allocation user tokens
      { s with shareAllocations := alRemove user s.shareAllocations }
  else
    { s with interruptedDistributions := alInsert user tokens s.interruptedDistributions }

/-- Result of a `distribute` / `validate_distribute` run: a normal return
(`ok`/`err`, the latter keeping the state it returned with) or a Rust panic
(`candid::Nat` division by zero). -/
inductive DistributeResult where
  | ok (s : AirdropState)
  | err (e : AirdropError) (s : AirdropState)
  | panic (msg : String)
deriving DecidableEq, Repr

/-- Model of `distribute` (canister.rs). Checks: controller; balance lookup (itself
requiring a configured ledger); non-empty share list; fee lookup;
`total_fee > total_tokens`; then `token_per_share = (total_tokens -
total_fee) / shares_sum` — a `candid::Nat` division that panics when
`shares_sum == 0` — and the `token_per_share == 0` guard; finally the
transfer loop over the snapshot. -/
def distribute (auth : Bool) (balanceResp feeResp : Except String Nat)
    (outcome : Principal → Nat → Bool) (s : AirdropState) : DistributeResult :=
  match only_controller auth with
  | .error e => .err e s
  | .ok _ =>
  match token_balance s balanceResp with
  | .error e => .err e s
  | .ok total_tokens =>
  let share_allocations := get_all_share_allocations s
  if share_allocations.length < 1 then .err .EmptyAllocationList s
  else
  let shares_sum := sumShares share_allocations
  match token_fee s feeResp with
  | .error e => .err e s
  | .ok fee =>
  let total_fee := share_allocations.length * fee
  if total_fee > total_tokens then
    .err (.Unknown "Not enough token balance to cover the transfer fees.") s
  else
  if shares_sum = 0 then .panic "attempt to divide by zero"
  else
  let token_per_share := (total_tokens - total_fee) / shares_sum
  if token_per_share = 0 then .err (.Unknown "Token per share is zero") s
  else
  .ok (share_allocations.foldl
    (fun st a => processParticipant (outcome a.1) a.1 (token_per_share * a.2) st) s)

/-- Model of `validate_distribute` (canister.rs): the same checks as `distribute`
(including the division, hence the same panic behaviour) with no transfer
loop and no mutation. -/
def validate_distribute (auth : Bool) (balanceResp feeResp : Except String Nat)
    (s : AirdropState) : DistributeResult :=
  match only_controller auth with
  | .error e => .err e s
  | .ok _ =>
  match token_balance s balanceResp with
  | .error e => .err e s
  | .ok total_tokens =>
  let share_allocations := get_all_share_allocations s
  if share_allocations.length = 0 then .err .EmptyAllocationList s
  else
  let shares_sum := sumShares share_allocations
  match token_fee s feeResp with
  | .error e => .err e s
  | .ok fee =>
  let total_fee := share_allocations.length * fee
  if total_fee > total_tokens then
    .err (.Unknown "Not enough token balance to cover the transfer fees.") s
  else
  if shares_sum = 0 then .panic "attempt to divide by zero"
  else
  let token_per_share := (total_tokens - total_fee) / shares_sum
  if token_per_share = 0 then .err (.Unknown "Token per share is zero") s
  else .ok s

/-- Model of `get_token_canister_id` (canister.rs). -/
def get_token_canister_id (s : AirdropState) : Option Principal :=
  let id := get_token_pid s
  if id = Principal.anonymous then none else some id

/-- Model of `get_user_share_allocation` (canister.rs). -/
def get_user_share_allocation (s : AirdropState) (user : Principal) : Option Nat :=
  get_user_shares s user

/-- Model of `get_user_token_allocation` (canister.rs). -/
def get_user_token_allocation (s : AirdropState) (user : Principal) : Option Nat :=
  get_user_tokens s user

/-- Model of `get_shares_list` (canister.rs): page of at most 100 entries starting at
`start_index`; an out-of-bounds start yields the empty vector. -/
def get_shares_list (s : AirdropState) (start_index : Nat) : List (Principal × Nat) :=
  let allocations := get_all_share_allocations s
  let end_index := min (start_index + 100) allocations.length
  if start_index ≥ allocations.length then []
  else (allocations.drop start_index).take (end_index - start_index)

/-- Model of `get_interrupted_distributions` (canister.rs). -/
def get_interrupted_distributions (s : AirdropState) : List (Principal × Nat) :=
  s.interruptedDistributions

/-- Model of `get_tokens_list` (canister.rs): same paging over the token map. -/
def get_tokens_list (s : AirdropState) (start_index : Nat) : List (Principal × Nat) :=
  let allocations := get_all_token_allocations s
  let end_index := min (start_index + 100) allocations.length
  if start_index ≥ allocations.length then []
  else (allocations.drop start_index).take (end_index - start_index)

/-- Total of the per-participant payouts `token_per_share * share` that
`distribute`'s loop computes, over a share snapshot. -/
def payoutsSum (token_per_share : Nat) (l : List (Principal × Nat)) : Nat :=
  l.foldl (fun acc a => acc + token_per_share * a.2) 0

/-- Success/error classification of a run result (the shape the
validate/execute façade must agree on). -/
inductive RunClass where
  | accepted
  | rejected (e : AirdropError)
  | trapped (msg : String)
deriving DecidableEq, Repr

/-- Classifier from run results. -/
def classOf : DistributeResult → RunClass
  | .ok _ => .accepted
  | .err e _ => .rejected e
  | .panic m => .trapped m

theorem alGet_alInsert_self (p : Principal) (v : Nat) (l : List (Principal × Nat)) :
    alGet p (alInsert p v l) = some v := by
  induction l with
  | nil => simp [alInsert, alGet]
  | cons b rest ih =>
    by_cases h : b.1 = p
    · cases b; simp_all [alInsert, alGet]
    · cases b; simp_all [alInsert, alGet]

theorem alGet_alInsert_ne (p q : Principal) (v : Nat) (l : List (Principal × Nat))
    (h : q ≠ p) : alGet p (alInsert q v l) = alGet p l := by
  induction l with
  | nil => simp [alInsert, alGet, h]
  | cons b rest ih =>
    obtain ⟨bq, bv⟩ := b
    by_cases hb : bq = q
    · simp_all [alInsert, alGet]
    · by_cases hbp : bq = p <;> simp_all [alInsert, alGet]

theorem alGet_alRemove_ne (p q : Principal) (l : List (Principal × Nat))
    (h : q ≠ p) : alGet p (alRemove q l) = alGet p l := by
  induction l with
  | nil => simp [alRemove]
  | cons b rest ih =>
    obtain ⟨bq, bv⟩ := b
    by_cases hb : bq = q
    · simp_all [alRemove, alGet]
    · by_cases hbp : bq = p <;> simp_all [alRemove, alGet]

/-- C10. `get_token_canister_id` returns `none` exactly when the stored
ledger reference is the anonymous sentinel (in particular on the initial
state), and `some` of the stored principal otherwise. -/
theorem get_token_canister_id_none_iff_anonymous (s : AirdropState) :
    (get_token_canister_id s = none ↔ s.tokenPid = Principal.anonymous) ∧
    (s.tokenPid ≠ Principal.anonymous → get_token_canister_id s = some s.tokenPid) ∧
    get_token_canister_id initState = none := by
  refine ⟨?_, ?_, rfl⟩
  · by_cases h : s.tokenPid = Principal.anonymous <;>
      simp [get_token_canister_id, get_token_pid, h]
  · intro h
    simp [get_token_canister_id, get_token_pid, h]

/-- C10 witness: on a state whose ledger reference is principal 3, the
accessor returns `some ⟨3⟩`. -/
theorem get_token_canister_id_none_iff_anonymous_witness :
    (⟨⟨3⟩, [], [], []⟩ : AirdropState).tokenPid ≠ Principal.anonymous ∧
    get_token_canister_id ⟨⟨3⟩, [], [], []⟩ = some ⟨3⟩ :=
  ⟨by decide,
    (get_token_canister_id_none_iff_anonymous ⟨⟨3⟩, [], [], []⟩).2.1 (by decide)⟩

/-- C4 counterexample: a controller `reset` on a state with a non-empty
`INTERRUPTED_DISTRIBUTIONS` map succeeds yet leaves that map non-empty,
refuting the claim that reset empties InterruptedDistribution. -/
theorem reset_keeps_interrupted_distributions :
    (reset true ⟨⟨1⟩, [(⟨2⟩, 3)], [(⟨2⟩, 4)], [(⟨2⟩, 5)]⟩).1 = .ok () ∧
    (reset true ⟨⟨1⟩, [(⟨2⟩, 3)], [(⟨2⟩, 4)], [(⟨2⟩, 5)]⟩).2.interruptedDistributions
      = [(⟨2⟩, 5)] ∧
    (reset true ⟨⟨1⟩, [(⟨2⟩, 3)], [(⟨2⟩, 4)], [(⟨2⟩, 5)]⟩).2.interruptedDistributions
      ≠ [] := by
  refine ⟨rfl, rfl, by decide⟩

/-- C4 amended. A successful controller `reset` restores the ledger
reference to the anonymous sentinel and empties ShareAllocation and
TokenAllocation, regardless of the prior state — but leaves
InterruptedDistribution exactly as it was. -/
theorem reset_clears_all_but_interrupted (s : AirdropState) :
    reset true s =
      (.ok (), ⟨Principal.anonymous, [], [], s.interruptedDistributions⟩) := rfl

/-- C2 counterexample: a participant whose transfers all fail receives 4
attempts — a fourth attempt exists, refuting the 3-attempt bound. -/
theorem retry_loop_issues_four_attempts :
    transferAttempts (fun _ => false) = 4 ∧
    ¬ transferAttempts (fun _ => false) ≤ 3 := by
  refine ⟨rfl, by decide⟩

/-- C2 amended. For every sequence of remote transfer outcomes, the retry
loop of `distribute` issues at most 4 transfer attempts in total for a
participant (the initial attempt plus 3 retries) before parking the payout;
no participant ever receives a fifth attempt. -/
theorem transferAttempts_le_four (outcome : Nat → Bool) :
    transferAttempts outcome ≤ 4 := by
  by_cases h0 : outcome 0 <;> by_cases h1 : outcome 1 <;>
    by_cases h2 : outcome 2 <;> by_cases h3 : outcome 3 <;>
      simp [transferAttempts, retryLoop, h0, h1, h2, h3]

/-- C9. Paged listings: a start index at or beyond the collection size
yields the empty page (never an error — the functions are total); a start
index below the size yields exactly `min 100 (size - startIndex)` entries.
Holds for both `get_shares_list` and `get_tokens_list`. -/
theorem paging_bounds (s : AirdropState) (start_index : Nat) :
    (start_index ≥ s.shareAllocations.length → get_shares_list s start_index = []) ∧
    (start_index < s.shareAllocations.length →
      (get_shares_list s start_index).length
        = min 100 (s.shareAllocations.length - start_index)) ∧
    (start_index ≥ s.tokenAllocations.length → get_tokens_list s start_index = []) ∧
    (start_index < s.tokenAllocations.length →
      (get_tokens_list s start_index).length
        = min 100 (s.tokenAllocations.length - start_index)) := by
  refine ⟨?_, ?_, ?_, ?_⟩
  · intro h; simp [get_shares_list, get_all_share_allocations, h]
  · intro h
    have hne : ¬ start_index ≥ s.shareAllocations.length := by omega
    simp [get_shares_list, get_all_share_allocations, hne]
    omega
  · intro h; simp [get_tokens_list, get_all_token_allocations, h]
  · intro h
    have hne : ¬ start_index ≥ s.tokenAllocations.length := by omega
    simp [get_tokens_list, get_all_token_allocations, hne]
    omega

/-- C9 witness: on a state with 3 share entries and 2 token entries,
start index 5 gives the empty share page, start index 1 gives
`min 100 (3 - 1) = 2` share entries, and start index 0 gives both token
entries. -/
theorem paging_bounds_witness :
    (5 ≥ (⟨⟨1⟩, [(⟨2⟩, 1), (⟨3⟩, 2)], [(⟨4⟩, 3), (⟨5⟩, 4), (⟨6⟩, 5)], []⟩ :
        AirdropState).shareAllocations.length ∧
      get_shares_list ⟨⟨1⟩, [(⟨2⟩, 1), (⟨3⟩, 2)], [(⟨4⟩, 3), (⟨5⟩, 4), (⟨6⟩, 5)], []⟩ 5
        = []) ∧
    (1 < (⟨⟨1⟩, [(⟨2⟩, 1), (⟨3⟩, 2)], [(⟨4⟩, 3), (⟨5⟩, 4), (⟨6⟩, 5)], []⟩ :
        AirdropState).shareAllocations.length ∧
      (get_shares_list ⟨⟨1⟩, [(⟨2⟩, 1), (⟨3⟩, 2)], [(⟨4⟩, 3), (⟨5⟩, 4), (⟨6⟩, 5)], []⟩
        1).length = min 100 (3 - 1)) ∧
    (0 < (⟨⟨1⟩, [(⟨2⟩, 1), (⟨3⟩, 2)], [(⟨4⟩, 3), (⟨5⟩, 4), (⟨6⟩, 5)], []⟩ :
        AirdropState).tokenAllocations.length ∧
      (get_tokens_list ⟨⟨1⟩, [(⟨2⟩, 1), (⟨3⟩, 2)], [(⟨4⟩, 3), (⟨5⟩, 4), (⟨6⟩, 5)], []⟩
        0).length = min 100 (2 - 0)) :=
  ⟨⟨by decide,
    (paging_bounds ⟨⟨1⟩, [(⟨2⟩, 1), (⟨3⟩, 2)], [(⟨4⟩, 3), (⟨5⟩, 4), (⟨6⟩, 5)], []⟩ 5).1
      (by decide)⟩,
   ⟨by decide,
    (paging_bounds ⟨⟨1⟩, [(⟨2⟩, 1), (⟨3⟩, 2)], [(⟨4⟩, 3), (⟨5⟩, 4), (⟨6⟩, 5)], []⟩ 1).2.1
      (by decide)⟩,
   ⟨by decide,
    (paging_bounds ⟨⟨1⟩, [(⟨2⟩, 1), (⟨3⟩, 2)], [(⟨4⟩, 3), (⟨5⟩, 4), (⟨6⟩, 5)], []⟩ 0).2.2.2
      (by decide)⟩⟩

/-- C3 counterexample: with a controller caller and identical state, the
real `set_token_canister_id` accepts the anonymous principal that its
validate twin rejects, and the real `add_share_allocations` accepts a
zero-share entry that its validate twin rejects — the accept/reject
decisions diverge. -/
theorem validate_execute_divergence :
    (set_token_canister_id true Principal.anonymous ⟨⟨1⟩, [], [], []⟩).1 = .ok () ∧
    (validate_set_token_canister_id true Principal.anonymous ⟨⟨1⟩, [], [], []⟩).1
      = .error .ConfigurationError ∧
    (add_share_allocations true [(⟨2⟩, 0)] ⟨⟨1⟩, [], [], []⟩).1 = .ok () ∧
    (validate_add_share_allocations true [(⟨2⟩, 0)] ⟨⟨1⟩, [], [], []⟩).1
      = .error .ConfigurationError :=
  ⟨rfl, rfl, rfl, rfl⟩

/-- C3 amended. Every `validate_*` twin mutates nothing — the set/add/reset
twins return the state they were given, and every result
`validate_distribute` returns carries the unchanged state (or it traps on
the division, committing nothing) — and acceptance by a validate twin
implies acceptance by the real call; `reset`/`validate_reset` and
`distribute`/`validate_distribute` agree exactly on the success/error
classification for every state and input — but `set_token_canister_id` and
`add_share_allocations` also accept inputs their validate twins reject
(anonymous ledger id; zero-share or anonymous-participant entries), so the
two directions coincide only for the reset and distribute pairs. -/
theorem validate_twins_classification :
    (∀ auth id s, (validate_set_token_canister_id auth id s).2 = s) ∧
    (∀ auth l s, (validate_add_share_allocations auth l s).2 = s) ∧
    (∀ auth s, (validate_reset auth s).2 = s) ∧
    (∀ auth id s, (validate_set_token_canister_id auth id s).1 = .ok () →
      (set_token_canister_id auth id s).1 = .ok ()) ∧
    (∀ auth l s, (validate_add_share_allocations auth l s).1 = .ok () →
      (add_share_allocations auth l s).1 = .ok ()) ∧
    (∀ auth s, (validate_reset auth s).1 = (reset auth s).1) ∧
    (∀ auth br fr outcome s,
      classOf (validate_distribute auth br fr s) = classOf (distribute auth br fr outcome s)) ∧
    (∀ auth br fr s, validate_distribute auth br fr s = .ok s ∨
      (∃ e, validate_distribute auth br fr s = .err e s) ∨
      (∃ m, validate_distribute auth br fr s = .panic m)) := by
  refine ⟨?_, ?_, ?_, ?_, ?_, ?_, ?_, ?_⟩
  · intro auth id s
    cases auth
    · rfl
    · by_cases h : id = Principal.anonymous <;>
        simp [validate_set_token_canister_id, only_controller, h]
  · intro auth l s
    cases auth <;> rfl
  · intro auth s
    cases auth <;> rfl
  · intro auth id s h
    cases auth
    · simp [validate_set_token_canister_id, only_controller] at h
    · rfl
  · intro auth l s h
    cases auth
    · simp [validate_add_share_allocations, only_controller] at h
    · rfl
  · intro auth s
    cases auth <;> rfl
  · intro auth br fr outcome s
    cases auth
    · rfl
    · by_cases hpid : s.tokenPid = Principal.anonymous
      · simp [validate_distribute, distribute, only_controller, token_balance,
          not_anonymous, get_token_pid, hpid, classOf]
      · cases br with
        | error m =>
          simp [validate_distribute, distribute, only_controller, token_balance,
            handle_intercanister_call, not_anonymous, get_token_pid, hpid, classOf]
        | ok B =>
          by_cases hlen : s.shareAllocations.length = 0
          · simp [validate_distribute, distribute, only_controller, token_balance,
              handle_intercanister_call, not_anonymous, get_token_pid, hpid,
              get_all_share_allocations, hlen, Nat.lt_one_iff, classOf]
          · cases fr with
            | error m =>
              simp [validate_distribute, distribute, only_controller, token_balance,
                token_fee, handle_intercanister_call, not_anonymous, get_token_pid, hpid,
                get_all_share_allocations, hlen, Nat.lt_one_iff, classOf]
            | ok f =>
              by_cases hfee : s.shareAllocations.length * f > B
              · simp [validate_distribute, distribute, only_controller, token_balance,
                  token_fee, handle_intercanister_call, not_anonymous, get_token_pid, hpid,
                  get_all_share_allocations, hlen, hfee, Nat.lt_one_iff, classOf]
              · by_cases hsum : sumShares s.shareAllocations = 0
                · simp [validate_distribute, distribute, only_controller, token_balance,
                    token_fee, handle_intercanister_call, not_anonymous, get_token_pid, hpid,
                    get_all_share_allocations, hlen, hfee, hsum, Nat.lt_one_iff, classOf]
                · by_cases htps :
                    (B - s.shareAllocations.length * f) / sumShares s.shareAllocations = 0
                  · simp [validate_distribute, distribute, only_controller, token_balance,
                      token_fee, handle_intercanister_call, not_anonymous, get_token_pid,
                      hpid, get_all_share_allocations, hlen, hfee, hsum, htps,
                      Nat.lt_one_iff, classOf]
                  · simp [validate_distribute, distribute, only_controller, token_balance,
                      token_fee, handle_intercanister_call, not_anonymous, get_token_pid,
                      hpid, get_all_share_allocations, hlen, hfee, hsum, htps,
                      Nat.lt_one_iff, classOf]
  · intro auth br fr s
    cases auth
    · exact Or.inr (Or.inl ⟨.Unauthorized, rfl⟩)
    · by_cases hpid : s.tokenPid = Principal.anonymous
      · refine Or.inr (Or.inl ⟨.ConfigurationError, ?_⟩)
        simp [validate_distribute, only_controller, token_balance, not_anonymous,
          get_token_pid, hpid]
      · cases br with
        | error m =>
          refine Or.inr (Or.inl ⟨.Unknown m, ?_⟩)
          simp [validate_distribute, only_controller, token_balance,
            handle_intercanister_call, not_anonymous, get_token_pid, hpid]
        | ok B =>
          by_cases hlen : s.shareAllocations.length = 0
          · refine Or.inr (Or.inl ⟨.EmptyAllocationList, ?_⟩)
            simp [validate_distribute, only_controller, token_balance,
              handle_intercanister_call, not_anonymous, get_token_pid, hpid,
              get_all_share_allocations, hlen]
          · cases fr with
            | error m =>
              refine Or.inr (Or.inl ⟨.Unknown m, ?_⟩)
              simp [validate_distribute, only_controller, token_balance, token_fee,
                handle_intercanister_call, not_anonymous, get_token_pid, hpid,
                get_all_share_allocations, hlen]
            | ok f =>
              by_cases hfee : s.shareAllocations.length * f > B
              · refine Or.inr (Or.inl
                  ⟨.Unknown "Not enough token balance to cover the transfer fees.", ?_⟩)
                simp [validate_distribute, only_controller, token_balance, token_fee,
                  handle_intercanister_call, not_anonymous, get_token_pid, hpid,
                  get_all_share_allocations, hlen, hfee]
              · by_cases hsum : sumShares s.shareAllocations = 0
                · refine Or.inr (Or.inr ⟨"attempt to divide by zero", ?_⟩)
                  simp [validate_distribute, only_controller, token_balance, token_fee,
                    handle_intercanister_call, not_anonymous, get_token_pid, hpid,
                    get_all_share_allocations, hlen, hfee, hsum]
                · by_cases htps :
                    (B - s.shareAllocations.length * f) / sumShares s.shareAllocations = 0
                  · refine Or.inr (Or.inl ⟨.Unknown "Token per share is zero", ?_⟩)
                    simp [validate_distribute, only_controller, token_balance, token_fee,
                      handle_intercanister_call, not_anonymous, get_token_pid, hpid,
                      get_all_share_allocations, hlen, hfee, hsum, htps]
                  · refine Or.inl ?_
                    simp [validate_distribute, only_controller, token_balance, token_fee,
                      handle_intercanister_call, not_anonymous, get_token_pid, hpid,
                      get_all_share_allocations, hlen, hfee, hsum, htps]

/-- C3 witness: at a concrete controller call with a non-anonymous id, the
validate twin accepts and (by the theorem) the real call accepts; the
validate twin on a concrete allocation list leaves the state untouched. -/
theorem validate_twins_classification_witness :
    (validate_set_token_canister_id true ⟨4⟩ ⟨⟨1⟩, [], [], []⟩).1 = .ok () ∧
    (set_token_canister_id true ⟨4⟩ ⟨⟨1⟩, [], [], []⟩).1 = .ok () ∧
    (validate_add_share_allocations true [(⟨2⟩, 5)] ⟨⟨1⟩, [], [], []⟩).2
      = ⟨⟨1⟩, [], [], []⟩ :=
  ⟨rfl,
    validate_twins_classification.2.2.2.1 true ⟨4⟩ ⟨⟨1⟩, [], [], []⟩ rfl,
    validate_twins_classification.2.1 true [(⟨2⟩, 5)] ⟨⟨1⟩, [], [], []⟩⟩

theorem sumShares_eq (l : List (Principal × Nat)) :
    sumShares l = (l.map Prod.snd).sum := by
  have h : ∀ n, l.foldl (fun acc a => acc + a.2) n = n + (l.map Prod.snd).sum := by
    induction l with
    | nil => intro n; simp
    | cons b rest ih =>
      intro n
      simp [ih]
      omega
  simpa [sumShares] using h 0

theorem payoutsSum_eq (tps : Nat) (l : List (Principal × Nat)) :
    payoutsSum tps l = tps * sumShares l := by
  have h : ∀ n, l.foldl (fun acc a => acc + tps * a.2) n
      = n + tps * (l.map Prod.snd).sum := by
    induction l with
    | nil => intro n; simp
    | cons b rest ih =>
      intro n
      simp [ih]
      ring
  simp [payoutsSum, sumShares_eq, h 0]

theorem sumShares_pos (l : List (Principal × Nat)) (hne : l ≠ [])
    (hpos : ∀ a ∈ l, 0 < a.2) : 0 < sumShares l := by
  cases l with
  | nil => exact absurd rfl hne
  | cons b rest =>
    have hb : 0 < b.2 := hpos b (by simp)
    rw [sumShares_eq]
    simp only [List.map_cons, List.sum_cons]
    omega

/-- C6. For a non-empty share list with positive shares, balance `B` and
per-transfer fee such that the total fee fits in `B` and the computed
`token_per_share` is positive, the total of the per-participant payouts is
at most `B - totalFee`, with equality exactly when `sumShares` divides
`B - totalFee`. -/
theorem payoutsSum_le_budget (l : List (Principal × Nat)) (B fee : Nat)
    (hne : l ≠ []) (hpos : ∀ a ∈ l, 0 < a.2)
    (hfee : l.length * fee ≤ B)
    (htps : 0 < (B - l.length * fee) / sumShares l) :
    payoutsSum ((B - l.length * fee) / sumShares l) l ≤ B - l.length * fee ∧
    (payoutsSum ((B - l.length * fee) / sumShares l) l = B - l.length * fee ↔
      sumShares l ∣ (B - l.length * fee)) := by
  rw [payoutsSum_eq]
  refine ⟨Nat.div_mul_le_self _ _, ?_, fun h => Nat.div_mul_cancel h⟩
  intro h
  exact Dvd.intro_left _ h

/-- C6 witness: shares `{2 ↦ 1, 3 ↦ 3}`, balance 101, fee 0 give
`token_per_share = 25` and a payout total of 100 ≤ 101, with equality
failing because 4 does not divide 101. -/
theorem payoutsSum_le_budget_witness :
    (([(⟨2⟩, 1), (⟨3⟩, 3)] : List (Principal × Nat)) ≠ []) ∧
    (∀ a ∈ ([(⟨2⟩, 1), (⟨3⟩, 3)] : List (Principal × Nat)), 0 < a.2) ∧
    (([(⟨2⟩, 1), (⟨3⟩, 3)] : List (Principal × Nat)).length * 0 ≤ 101) ∧
    0 < (101 - ([(⟨2⟩, 1), (⟨3⟩, 3)] : List (Principal × Nat)).length * 0)
      / sumShares ([(⟨2⟩, 1), (⟨3⟩, 3)] : List (Principal × Nat)) ∧
    (payoutsSum ((101 - ([(⟨2⟩, 1), (⟨3⟩, 3)] : List (Principal × Nat)).length * 0)
        / sumShares ([(⟨2⟩, 1), (⟨3⟩, 3)] : List (Principal × Nat)))
        ([(⟨2⟩, 1), (⟨3⟩, 3)] : List (Principal × Nat))
      ≤ 101 - ([(⟨2⟩, 1), (⟨3⟩, 3)] : List (Principal × Nat)).length * 0 ∧
     (payoutsSum ((101 - ([(⟨2⟩, 1), (⟨3⟩, 3)] : List (Principal × Nat)).length * 0)
        / sumShares ([(⟨2⟩, 1), (⟨3⟩, 3)] : List (Principal × Nat)))
        ([(⟨2⟩, 1), (⟨3⟩, 3)] : List (Principal × Nat))
      = 101 - ([(⟨2⟩, 1), (⟨3⟩, 3)] : List (Principal × Nat)).length * 0 ↔
      sumShares ([(⟨2⟩, 1), (⟨3⟩, 3)] : List (Principal × Nat))
        ∣ (101 - ([(⟨2⟩, 1), (⟨3⟩, 3)] : List (Principal × Nat)).length * 0))) :=
  ⟨by decide, by decide, by decide, by decide,
    payoutsSum_le_budget ([(⟨2⟩, 1), (⟨3⟩, 3)] : List (Principal × Nat)) 101 0
      (by decide) (by decide) (by decide) (by decide)⟩

/-- C5 counterexample: a controller `distribute` on a non-empty share map
summing to zero (balance 9, fee 0, lookups succeeding) reaches the
`candid::Nat` division and traps, instead of returning a computation
error. -/
theorem distribute_zero_share_sum_trap_not_error :
    distribute true (.ok 9) (.ok 0) (fun _ _ => false) ⟨⟨1⟩, [], [(⟨3⟩, 0)], []⟩
      = .panic "attempt to divide by zero" := rfl

/-- C5 amended. If `distribute` is invoked by a controller on a non-empty
ShareAllocation whose shares sum to zero, with successful balance/fee
lookups and total fee at most the balance, the run traps with a
division-by-zero panic before attempting any transfer (the result does not
depend on the transfer oracle), rather than failing with a returned
computation error. -/
theorem distribute_zero_share_sum_panics (B f : Nat) (outcome : Principal → Nat → Bool)
    (s : AirdropState) (hpid : s.tokenPid ≠ Principal.anonymous)
    (hne : s.shareAllocations ≠ [])
    (hsum : sumShares s.shareAllocations = 0)
    (hfee : s.shareAllocations.length * f ≤ B) :
    distribute true (.ok B) (.ok f) outcome s = .panic "attempt to divide by zero" := by
  have hlen : ¬ s.shareAllocations.length < 1 := by
    simp [Nat.lt_one_iff, List.length_eq_zero]
    exact hne
  have hfee' : ¬ s.shareAllocations.length * f > B := Nat.not_lt.mpr hfee
  simp [distribute, only_controller, token_balance, token_fee, handle_intercanister_call,
    not_anonymous, get_token_pid, hpid, get_all_share_allocations, hlen, hfee', hsum]

/-- C5 witness: state with ledger 1 and the single zero-share entry for
principal 2, balance 7, fee 1. -/
theorem distribute_zero_share_sum_panics_witness :
    ((⟨⟨1⟩, [], [(⟨2⟩, 0)], []⟩ : AirdropState).tokenPid ≠ Principal.anonymous) ∧
    ((⟨⟨1⟩, [], [(⟨2⟩, 0)], []⟩ : AirdropState).shareAllocations ≠ []) ∧
    (sumShares (⟨⟨1⟩, [], [(⟨2⟩, 0)], []⟩ : AirdropState).shareAllocations = 0) ∧
    ((⟨⟨1⟩, [], [(⟨2⟩, 0)], []⟩ : AirdropState).shareAllocations.length * 1 ≤ 7) ∧
    distribute true (.ok 7) (.ok 1) (fun _ _ => false) ⟨⟨1⟩, [], [(⟨2⟩, 0)], []⟩
      = .panic "attempt to divide by zero" :=
  ⟨by decide, by decide, by decide, by decide,
    distribute_zero_share_sum_panics 7 1 (fun _ _ => false) ⟨⟨1⟩, [], [(⟨2⟩, 0)], []⟩
      (by decide) (by decide) (by decide) (by decide)⟩

/-- C8 counterexample: at shares `{2 ↦ 0}`, balance 10, fee 0, the quotient
`(balance - totalFee) / shareSum` is 0 (truncating division with divisor 0),
so the claim demands the zero-payout-rate error — but the run traps on the
division instead of returning it. -/
theorem distribute_zero_rate_iff_fails :
    ((10 - (⟨⟨1⟩, [], [(⟨2⟩, 0)], []⟩ : AirdropState).shareAllocations.length * 0)
       / sumShares (⟨⟨1⟩, [], [(⟨2⟩, 0)], []⟩ : AirdropState).shareAllocations = 0) ∧
    distribute true (.ok 10) (.ok 0) (fun _ _ => true) ⟨⟨1⟩, [], [(⟨2⟩, 0)], []⟩
      = .panic "attempt to divide by zero" ∧
    distribute true (.ok 10) (.ok 0) (fun _ _ => true) ⟨⟨1⟩, [], [(⟨2⟩, 0)], []⟩
      ≠ .err (.Unknown "Token per share is zero") ⟨⟨1⟩, [], [(⟨2⟩, 0)], []⟩ :=
  ⟨rfl, rfl, by decide⟩

/-- C8 amended. With a controller caller, a configured ledger and successful
lookups (balance `B`, fee `f`), and for every transfer oracle:
`distribute` fails with `EmptyAllocationList` iff ShareAllocation is empty;
with the insufficient-balance error iff the shares are non-empty and
`totalFee > B`; with the zero-payout-rate error iff additionally
`shareSum ≠ 0` and `(B - totalFee) / shareSum = 0`; and it traps on the
division iff the shares are non-empty, `totalFee ≤ B` and `shareSum = 0`.
Each failure carries the unchanged state `s` and is independent of the
transfer oracle, i.e. it is returned synchronously before any transfer. -/
theorem distribute_precondition_errors (B f : Nat) (outcome : Principal → Nat → Bool)
    (s : AirdropState) (hpid : s.tokenPid ≠ Principal.anonymous) :
    (distribute true (.ok B) (.ok f) outcome s = .err .EmptyAllocationList s ↔
      s.shareAllocations = []) ∧
    (distribute true (.ok B) (.ok f) outcome s
        = .err (.Unknown "Not enough token balance to cover the transfer fees.") s ↔
      (s.shareAllocations ≠ [] ∧ s.shareAllocations.length * f > B)) ∧
    (distribute true (.ok B) (.ok f) outcome s
        = .err (.Unknown "Token per share is zero") s ↔
      (s.shareAllocations ≠ [] ∧ s.shareAllocations.length * f ≤ B ∧
        sumShares s.shareAllocations ≠ 0 ∧
        (B - s.shareAllocations.length * f) / sumShares s.shareAllocations = 0)) ∧
    ((distribute true (.ok B) (.ok f) outcome s = .panic "attempt to divide by zero") ↔
      (s.shareAllocations ≠ [] ∧ s.shareAllocations.length * f ≤ B ∧
        sumShares s.shareAllocations = 0)) := by
  by_cases hemp : s.shareAllocations = []
  · have hlen : s.shareAllocations.length < 1 := by simp [hemp]
    simp [distribute, only_controller, token_balance, token_fee,
      handle_intercanister_call, not_anonymous, get_token_pid, hpid,
      get_all_share_allocations, hlen, hemp]
  · have hlen : ¬ s.shareAllocations.length < 1 := by
      simpa [Nat.lt_one_iff, List.length_eq_zero] using hemp
    by_cases hfee : s.shareAllocations.length * f > B
    · simp [distribute, only_controller, token_balance, token_fee,
        handle_intercanister_call, not_anonymous, get_token_pid, hpid,
        get_all_share_allocations, hlen, hemp, hfee]
    · by_cases hsum : sumShares s.shareAllocations = 0
      · simp [distribute, only_controller, token_balance, token_fee,
          handle_intercanister_call, not_anonymous, get_token_pid, hpid,
          get_all_share_allocations, hlen, hemp, hfee, hsum]
        omega
      · by_cases htps :
          (B - s.shareAllocations.length * f) / sumShares s.shareAllocations = 0
        · simp [distribute, only_controller, token_balance, token_fee,
            handle_intercanister_call, not_anonymous, get_token_pid, hpid,
            get_all_share_allocations, hlen, hemp, hfee, hsum, htps]
          omega
        · simp [distribute, only_controller, token_balance, token_fee,
            handle_intercanister_call, not_anonymous, get_token_pid, hpid,
            get_all_share_allocations, hlen, hemp, hfee, hsum, htps]

/-- C8 witness: empty share map, configured ledger, balance 5, fee 1 — the
run fails with `EmptyAllocationList` and the state it returns is unchanged. -/
theorem distribute_precondition_errors_witness :
    ((⟨⟨1⟩, [], [], []⟩ : AirdropState).tokenPid ≠ Principal.anonymous) ∧
    distribute true (.ok 5) (.ok 1) (fun _ _ => true) ⟨⟨1⟩, [], [], []⟩
      = .err .EmptyAllocationList ⟨⟨1⟩, [], [], []⟩ :=
  ⟨by decide,
    (distribute_precondition_errors 5 1 (fun _ _ => true) ⟨⟨1⟩, [], [], []⟩
      (by decide)).1.mpr rfl⟩

/-- Folding the per-participant bookkeeping over entries whose keys all
differ from `p` changes nothing about what the token and interrupted maps
record for `p`. -/
theorem foldl_process_preserves (outcome : Principal → Nat → Bool) (tps : Nat)
    (l : List (Principal × Nat)) (p : Principal) :
    ∀ st : AirdropState, p ∉ l.map Prod.fst →
      alGet p (l.foldl
          (fun st a => processParticipant (outcome a.1) a.1 (tps * a.2) st)
          st).tokenAllocations
        = alGet p st.tokenAllocations ∧
      alGet p (l.foldl
          (fun st a => processParticipant (outcome a.1) a.1 (tps * a.2) st)
          st).interruptedDistributions
        = alGet p st.interruptedDistributions := by
  induction l with
  | nil => intro st _; exact ⟨rfl, rfl⟩
  | cons b rest ih =>
    intro st hp
    have hb : b.1 ≠ p := fun h => hp (by simp [h])
    have hrest : p ∉ rest.map Prod.fst := fun h => hp (by simp [h])
    have hstep :
        alGet p (processParticipant (outcome b.1) b.1 (tps * b.2) st).tokenAllocations
          = alGet p st.tokenAllocations ∧
        alGet p (processParticipant (outcome b.1) b.1 (tps * b.2) st).interruptedDistributions
          = alGet p st.interruptedDistributions := by
      unfold processParticipant
      split
      · exact ⟨by simp [add_token_allocation, alGet_alInsert_ne _ _ _ _ hb], rfl⟩
      · exact ⟨rfl, by simp [alGet_alInsert_ne _ _ _ _ hb]⟩
    have hr := ih (processParticipant (outcome b.1) b.1 (tps * b.2) st) hrest
    rw [List.foldl_cons]
    exact ⟨hr.1.trans hstep.1, hr.2.trans hstep.2⟩

/-- After folding the bookkeeping over a snapshot with distinct keys, every
entry of the snapshot is recorded for its participant: the payout lands in
the token map when the retry loop succeeded, and in the interrupted map
when it exhausted its retries. -/
theorem foldl_process_lookup (outcome : Principal → Nat → Bool) (tps : Nat)
    (l : List (Principal × Nat)) :
    ∀ st : AirdropState, (l.map Prod.fst).Nodup → ∀ a ∈ l,
      (transferSucceeds (outcome a.1) = true →
        alGet a.1 (l.foldl
            (fun st a => processParticipant (outcome a.1) a.1 (tps * a.2) st)
            st).tokenAllocations = some (tps * a.2)) ∧
      (transferSucceeds (outcome a.1) = false →
        alGet a.1 (l.foldl
            (fun st a => processParticipant (outcome a.1) a.1 (tps * a.2) st)
            st).interruptedDistributions = some (tps * a.2)) := by
  induction l with
  | nil => intro st _ a ha; cases ha
  | cons b rest ih =>
    intro st hnodup a ha
    rw [List.map_cons] at hnodup
    have hnd := List.nodup_cons.mp hnodup
    rcases List.mem_cons.mp ha with hab | harest
    · subst hab
      have hpres := foldl_process_preserves outcome tps rest a.1
        (processParticipant (outcome a.1) a.1 (tps * a.2) st) hnd.1
      constructor
      · intro hs
        rw [List.foldl_cons, hpres.1]
        simp [processParticipant, hs, add_token_allocation, alGet_alInsert_self]
      · intro hs
        rw [List.foldl_cons, hpres.2]
        simp [processParticipant, hs, alGet_alInsert_self]
    · rw [List.foldl_cons]
      exact ih (processParticipant (outcome b.1) b.1 (tps * b.2) st) hnd.2 a harest

/-- C7. When every precondition of a distribution run holds, the run
returns `Ok` for every transfer oracle — participants whose transfers fail
on all retry attempts never abort the rest of the run: their computed
payout is recorded in InterruptedDistribution, while every participant
whose transfer eventually succeeds has the payout recorded in
TokenAllocation. -/
theorem distribute_parks_failures (B f : Nat) (outcome : Principal → Nat → Bool)
    (s : AirdropState)
    (hpid : s.tokenPid ≠ Principal.anonymous)
    (hne : s.shareAllocations ≠ [])
    (hnodup : (s.shareAllocations.map Prod.fst).Nodup)
    (hfee : s.shareAllocations.length * f ≤ B)
    (hsum : sumShares s.shareAllocations ≠ 0)
    (htps : (B - s.shareAllocations.length * f) / sumShares s.shareAllocations ≠ 0) :
    ∃ s', distribute true (.ok B) (.ok f) outcome s = .ok s' ∧
      ∀ a ∈ s.shareAllocations,
        (transferSucceeds (outcome a.1) = false →
          alGet a.1 s'.interruptedDistributions
            = some ((B - s.shareAllocations.length * f)
                / sumShares s.shareAllocations * a.2)) ∧
        (transferSucceeds (outcome a.1) = true →
          alGet a.1 s'.tokenAllocations
            = some ((B - s.shareAllocations.length * f)
                / sumShares s.shareAllocations * a.2)) := by
  have hlen : ¬ s.shareAllocations.length < 1 := by
    simpa [Nat.lt_one_iff, List.length_eq_zero] using hne
  have hfee' : ¬ s.shareAllocations.length * f > B := Nat.not_lt.mpr hfee
  have hdist : distribute true (.ok B) (.ok f) outcome s
      = .ok (s.shareAllocations.foldl
          (fun st a => processParticipant (outcome a.1) a.1
            ((B - s.shareAllocations.length * f) / sumShares s.shareAllocations * a.2) st)
          s) := by
    simp [distribute, only_controller, token_balance, token_fee,
      handle_intercanister_call, not_anonymous, get_token_pid, hpid,
      get_all_share_allocations, hlen, hfee', hsum, htps]
  refine ⟨_, hdist, fun a ha => ?_⟩
  have h := foldl_process_lookup outcome
    ((B - s.shareAllocations.length * f) / sumShares s.shareAllocations)
    s.shareAllocations s hnodup a ha
  exact ⟨h.2, h.1⟩

/-- C7 witness: shares `{2 ↦ 1, 3 ↦ 3}`, balance 100, fee 0, participant 2
failing every attempt and participant 3 succeeding: the run returns `Ok`,
parks `(2, 25)` in InterruptedDistribution and records `(3, 75)` in
TokenAllocation. -/
theorem distribute_parks_failures_witness :
    ((⟨⟨1⟩, [], [(⟨2⟩, 1), (⟨3⟩, 3)], []⟩ : AirdropState).tokenPid
        ≠ Principal.anonymous) ∧
    ((⟨⟨1⟩, [], [(⟨2⟩, 1), (⟨3⟩, 3)], []⟩ : AirdropState).shareAllocations ≠ []) ∧
    (((⟨⟨1⟩, [], [(⟨2⟩, 1), (⟨3⟩, 3)], []⟩ : AirdropState).shareAllocations.map
        Prod.fst).Nodup) ∧
    ((⟨⟨1⟩, [], [(⟨2⟩, 1), (⟨3⟩, 3)], []⟩ :
        AirdropState).shareAllocations.length * 0 ≤ 100) ∧
    (sumShares (⟨⟨1⟩, [], [(⟨2⟩, 1), (⟨3⟩, 3)], []⟩ :
        AirdropState).shareAllocations ≠ 0) ∧
    ((100 - (⟨⟨1⟩, [], [(⟨2⟩, 1), (⟨3⟩, 3)], []⟩ :
          AirdropState).shareAllocations.length * 0)
        / sumShares (⟨⟨1⟩, [], [(⟨2⟩, 1), (⟨3⟩, 3)], []⟩ :
          AirdropState).shareAllocations ≠ 0) ∧
    (∃ s', distribute true (.ok 100) (.ok 0) (fun p _ => p.tag == 3)
        ⟨⟨1⟩, [], [(⟨2⟩, 1), (⟨3⟩, 3)], []⟩ = .ok s' ∧
      ∀ a ∈ (⟨⟨1⟩, [], [(⟨2⟩, 1), (⟨3⟩, 3)], []⟩ : AirdropState).shareAllocations,
        (transferSucceeds ((fun p _ => p.tag == 3) a.1) = false →
          alGet a.1 s'.interruptedDistributions
            = some ((100 - (⟨⟨1⟩, [], [(⟨2⟩, 1), (⟨3⟩, 3)], []⟩ :
                  AirdropState).shareAllocations.length * 0)
                / sumShares (⟨⟨1⟩, [], [(⟨2⟩, 1), (⟨3⟩, 3)], []⟩ :
                  AirdropState).shareAllocations * a.2)) ∧
        (transferSucceeds ((fun p _ => p.tag == 3) a.1) = true →
          alGet a.1 s'.tokenAllocations
            = some ((100 - (⟨⟨1⟩, [], [(⟨2⟩, 1), (⟨3⟩, 3)], []⟩ :
                  AirdropState).shareAllocations.length * 0)
                / sumShares (⟨⟨1⟩, [], [(⟨2⟩, 1), (⟨3⟩, 3)], []⟩ :
                  AirdropState).shareAllocations * a.2))) :=
  ⟨by decide, by decide, by decide, by decide, by decide, by decide,
    distribute_parks_failures 100 0 (fun p _ => p.tag == 3)
      ⟨⟨1⟩, [], [(⟨2⟩, 1), (⟨3⟩, 3)], []⟩
      (by decide) (by decide) (by decide) (by decide) (by decide) (by decide)⟩

/-- C1 (code slip). A concrete full run at the failing input: one
participant (principal 2, share 1), balance 10, fee 0, every transfer
attempt failing. The run returns `Ok`; the computed payout 10 is parked in
InterruptedDistribution — but the participant's ShareAllocation entry is
NOT removed (the retry-exhaustion branch of `distribute` only inserts into
`INTERRUPTED_DISTRIBUTIONS` and never deletes from `SHARE_ALLOCATIONS`),
so the share remains eligible for a later run. -/
theorem distribute_retry_exhaustion_keeps_share_entry :
    distribute true (.ok 10) (.ok 0) (fun _ _ => false) ⟨⟨1⟩, [], [(⟨2⟩, 1)], []⟩
      = .ok ⟨⟨1⟩, [], [(⟨2⟩, 1)], [(⟨2⟩, 10)]⟩ ∧
    get_user_shares ⟨⟨1⟩, [], [(⟨2⟩, 1)], [(⟨2⟩, 10)]⟩ ⟨2⟩ = some 1 ∧
    alGet ⟨2⟩ (⟨⟨1⟩, [], [(⟨2⟩, 1)], [(⟨2⟩, 10)]⟩ :
      AirdropState).interruptedDistributions = some 10 :=
  ⟨rfl, rfl, rfl⟩
